import Mathlib

/-!
Shallow embedding of `src/bot.py` (a Telegram chat bot with Gemini relay and
mini-games), together with theorems settling the specification claims.

Modelling conventions:
- Randomness is made explicit: each handler that draws from the random source
  takes the draw as a `Fin n` argument (an index into the list it draws from,
  matching `random.choice` / `random.randint`).
- Side effects are reified as a trace: a handler returns the `List Action` of
  outgoing replies (`Responder` calls) and generator invocations, in order.
- The Gemini generator is an oracle `String → Except String String`
  (`.ok text` for a successful response, `.error msg` for a raised exception
  whose `str(e)` is `msg`).
- The global `game_state` dict is a map `Nat → Option ChatGameState`, where
  `ChatGameState` mirrors the per-chat inner dict: its only possible key is
  `'trivia_answer'`, so it is a record with one optional field.
- String operations (`in`, `replace`, `strip`, `lower`, `' '.join`) are
  re-implemented structurally over `List Char` so that the kernel can evaluate
  them on concrete inputs.
-/

namespace Bot

/-- Trace element: an outgoing `reply_text` to the chat, or a
`model.generate_content` call with the given prompt. -/
inductive Action where
  | reply (text : String)
  | genCall (prompt : String)
deriving DecidableEq, Repr

def Action.isReply : Action → Bool
  | .reply _ => true
  | .genCall _ => false

def Action.isGenCall : Action → Bool
  | .reply _ => false
  | .genCall _ => true

/-- Number of Responder calls in a trace. -/
def countReplies (as : List Action) : Nat :=
  (as.filter Action.isReply).length

/-- Number of Generator calls in a trace. -/
def countGenCalls (as : List Action) : Nat :=
  (as.filter Action.isGenCall).length

/-! ### Structural string operations (Python semantics) -/

/-- Auxiliary for substring search: does `pat` occur in the character list? -/
def strContainsAux (pat : List Char) : List Char → Bool
  | [] => pat.isEmpty
  | c :: rest => pat.isPrefixOf (c :: rest) || strContainsAux pat rest

/-- Python's `pat in s` substring test. -/
def strContains (s pat : String) : Bool :=
  strContainsAux pat.data s.data

/-- Fuelled auxiliary for `replace`: replaces occurrences of `pat` left to
right, like Python's `str.replace`. Structural on the fuel so the kernel can
evaluate it. -/
def replaceListAux (pat repl : List Char) : Nat → List Char → List Char
  | 0, s => s
  | _ + 1, [] => []
  | fuel + 1, c :: rest =>
    if pat.isPrefixOf (c :: rest) then
      repl ++ replaceListAux pat repl fuel ((c :: rest).drop pat.length)
    else
      c :: replaceListAux pat repl fuel rest

/-- Python's `s.replace(pat, repl)` for non-empty `pat` (the bot only ever
replaces the handle `"@" + username`, which is never empty). -/
def strReplace (s pat repl : String) : String :=
  if pat = "" then s
  else ⟨replaceListAux pat.data repl.data (s.data.length + 1) s.data⟩

/-- Python's `s.strip()`: drop whitespace from both ends. -/
def strTrim (s : String) : String :=
  ⟨((s.data.dropWhile Char.isWhitespace).reverse.dropWhile Char.isWhitespace).reverse⟩

/-- Python's `s.lower()` (ASCII-adequate, matching the answer catalogs used). -/
def strLower (s : String) : String :=
  ⟨s.data.map Char.toLower⟩

/-- Python's `' '.join(args)`. -/
def joinSpace : List String → String
  | [] => ""
  | [a] => a
  | a :: b :: rest => a ++ " " ++ joinSpace (b :: rest)

/-! ### Mini-games (`roll_dice`, `flip_coin`, `magic_8ball`, `rock_paper_scissors`) -/

def dice_emojis : List String := ["⚀", "⚁", "⚂", "⚃", "⚄", "⚅"]

/-- `roll_dice`: `result = random.randint(1, 6)` is modelled as
`draw.val + 1` for `draw : Fin 6`. -/
def roll_dice (draw : Fin 6) : String :=
  let result := draw.val + 1
  let dice_emoji := dice_emojis.getD (result - 1) ""
  "🎲 You rolled: " ++ dice_emoji ++ " (" ++ toString result ++ ")"

/-- The value `random.choice(["Heads", "Tails"])` picks. -/
def flip_result (draw : Fin 2) : String :=
  if draw.val = 0 then "Heads" else "Tails"

/-- `flip_coin` reply text. -/
def flip_coin (draw : Fin 2) : String :=
  let result := flip_result draw
  let emoji := if result = "Heads" then "🪙" else "🔘"
  emoji ++ " The coin landed on: **" ++ result ++ "**!"

def eightball_responses : List String := [
  "Yes, definitely!", "It is certain.", "Without a doubt.",
  "You may rely on it.", "As I see it, yes.", "Most likely.",
  "Outlook good.", "Signs point to yes.", "Reply hazy, try again.",
  "Ask again later.", "Better not tell you now.", "Cannot predict now.",
  "Concentrate and ask again.", "Don't count on it.", "My reply is no.",
  "My sources say no.", "Outlook not so good.", "Very doubtful."]

def eightball_responses_length : eightball_responses.length = 18 := rfl

def eightball_usage : String :=
  "🔮 Ask the magic 8-ball a yes/no question!\nExample: /8ball Will I win?"

/-- `magic_8ball` handler: usage hint without arguments, otherwise one reply
drawn from the fixed catalog. -/
def magic_8ball (args : List String) (draw : Fin 18) : List Action :=
  if args = [] then [Action.reply eightball_usage]
  else
    let result := eightball_responses.get (Fin.cast eightball_responses_length.symm draw)
    [Action.reply ("🔮 The magic 8-ball says: **" ++ result ++ "**")]

def rps_choices : List String := ["rock", "paper", "scissors"]

def rps_choices_length : rps_choices.length = 3 := rfl

def rps_usage : String := "✊✋✌️ Choose rock, paper, or scissors!\nExample: /rps rock"

def rps_emoji (c : String) : String :=
  if c = "rock" then "✊" else if c = "paper" then "✋" else "✌️"

/-- The winner-determination cascade of `rock_paper_scissors`. -/
def rps_result_text (user_choice bot_choice : String) : String :=
  if user_choice = bot_choice then "It's a tie! 🤝"
  else if (user_choice = "rock" ∧ bot_choice = "scissors")
      ∨ (user_choice = "paper" ∧ bot_choice = "rock")
      ∨ (user_choice = "scissors" ∧ bot_choice = "paper") then "You win! 🎉"
  else "I win! 🤖"

/-- The full reply text rendered for a valid game. -/
def rps_render (user_choice bot_choice : String) : String :=
  "You chose: " ++ rps_emoji user_choice ++ " " ++ user_choice ++ "\n"
    ++ "I chose: " ++ rps_emoji bot_choice ++ " " ++ bot_choice ++ "\n\n"
    ++ rps_result_text user_choice bot_choice

/-- The bot's draw `random.choice(choices)`. -/
def rps_bot_choice (draw : Fin 3) : String :=
  rps_choices.get (Fin.cast rps_choices_length.symm draw)

/-- `rock_paper_scissors` handler. -/
def rock_paper_scissors (args : List String) (botDraw : Fin 3) : List Action :=
  if args = [] ∨ strLower (args.headD "") ∉ rps_choices then
    [Action.reply rps_usage]
  else
    let user_choice := strLower (args.headD "")
    [Action.reply (rps_render user_choice (rps_bot_choice botDraw))]

/-! ### `/ask` handler (`ask_gemini`) -/

def ask_usage : String := "Please provide a question! Example: /ask What is Python?"

/-- `ask_gemini` handler: `context.args` is the argument token list, `gen` the
Gemini oracle. The trace records the placeholder reply, then the generator
call, then the relayed response or the formatted error. -/
def ask_gemini (args : List String) (gen : String → Except String String) : List Action :=
  if args = [] then [Action.reply ask_usage]
  else
    let question := joinSpace args
    Action.reply "🤔 Thinking..." ::
      Action.genCall question ::
      (match gen question with
        | .ok r => [Action.reply r]
        | .error e => [Action.reply ("❌ Error: " ++ e)])

/-! ### Group-message dispatcher (`handle_group_message`)

The handler is registered with `filters.TEXT`, so `message.text` is a string
(possibly empty). `replyToSenderId` is `some i` when the message is a reply to
a message whose sender id is `i`, and `none` when it is not a reply. -/

/-- Line 91: `is_mentioned = f"@{bot_username}" in message.text if message.text else False`. -/
def mentioned (botUsername text : String) : Bool :=
  if text ≠ "" then strContains text ("@" ++ botUsername) else false

/-- Lines 92-95: `is_reply_to_bot`, a sender-identity match on the replied-to
message when there is one. -/
def isReplyToBot (botId : Nat) (replyToSenderId : Option Nat) : Bool :=
  match replyToSenderId with
  | some i => i == botId
  | none => false

/-- `handle_group_message`. -/
def handle_group_message (botUsername : String) (botId : Nat) (text : String)
    (replyToSenderId : Option Nat) (gen : String → Except String String) : List Action :=
  if !(mentioned botUsername text || isReplyToBot botId replyToSenderId) then []
  else
    let t := strTrim (strReplace text ("@" ++ botUsername) "")
    if t = "" then [Action.reply "Yes? How can I help you?"]
    else
      match gen t with
      | .ok r => [Action.genCall t, Action.reply r]
      | .error e => [Action.genCall t, Action.reply ("❌ Sorry, I encountered an error: " ++ e)]

/-! ### Trivia state machine (`trivia`, `game_state`) -/

/-- The per-chat inner dict of `game_state`: its only possible key is
`'trivia_answer'`, so it is a record with one optional field. `none` models
the key being absent (deleted), `some a` the key mapping to answer `a`. -/
structure ChatGameState where
  trivia_answer : Option String
deriving DecidableEq, Repr

/-- The global `game_state` dict: chat id → per-chat record, `none` when the
chat id is not a key. -/
def GameState : Type := Nat → Option ChatGameState

/-- `game_state[chat_id] = v` / in-place mutation of the entry. -/
def GameState.update (gs : GameState) (c : Nat) (v : ChatGameState) : GameState :=
  fun k => if k = c then some v else gs k

/-- The empty `game_state = {}` at process start. -/
def emptyStore : GameState := fun _ => none

def trivia_questions : List (String × String) := [
  ("What is the capital of France?", "Paris"),
  ("What is 2 + 2?", "4"),
  ("What is the largest planet in our solar system?", "Jupiter"),
  ("Who painted the Mona Lisa?", "Leonardo da Vinci"),
  ("What is the smallest prime number?", "2"),
  ("In what year did World War II end?", "1945"),
  ("What is the chemical symbol for gold?", "Au"),
  ("How many continents are there?", "7")]

def trivia_questions_length : trivia_questions.length = 8 := rfl

/-- The stored expected answer for conversation `c`, when one is pending:
`game_state[c]['trivia_answer']` if both keys exist. -/
def pendingAnswer (gs : GameState) (c : Nat) : Option String :=
  match gs c with
  | some st => st.trivia_answer
  | none => none

/-- Line 199's guard, negated: `Idle` means no pending `'trivia_answer'`. -/
def isIdle (gs : GameState) (c : Nat) : Bool :=
  (pendingAnswer gs c).isNone

/-- The "new question" tail of `trivia`: pick `questions[draw]`, overwrite the
chat's entry, and reply with the question text. -/
def trivia_new_question (chat_id : Nat) (draw : Fin 8) (gs : GameState) :
    List Action × GameState :=
  ([Action.reply ("❓ Trivia Question:\n\n"
      ++ (trivia_questions.get (Fin.cast trivia_questions_length.symm draw)).1
      ++ "\n\nReply with: /trivia [your answer]")],
   gs.update chat_id
     { trivia_answer := some (trivia_questions.get (Fin.cast trivia_questions_length.symm draw)).2 })

/-- The `trivia` handler. The answer branch runs exactly when a
`'trivia_answer'` is pending for the chat and `context.args` is non-empty;
every other case falls through to issuing a new question. -/
def trivia (chat_id : Nat) (args : List String) (draw : Fin 8) (gs : GameState) :
    List Action × GameState :=
  match args, pendingAnswer gs chat_id with
  | _ :: _, some correct_answer =>
    let user_answer := strTrim (joinSpace args)
    let verdict :=
      if strLower user_answer = strLower correct_answer then "✅ Correct! Well done! 🎉"
      else "❌ Wrong! The correct answer was: " ++ correct_answer
    ([Action.reply verdict, Action.reply "Type /trivia for another question!"],
     gs.update chat_id { trivia_answer := none })
  | _, _ => trivia_new_question chat_id draw gs

/-- Deleting a chat's whole entry: used to compare the code's
"empty record" representation of Idle with the "no entry" representation. -/
def removeEntry (gs : GameState) (c : Nat) : GameState :=
  fun k => if k = c then none else gs k

/-! ### Specification-side definitions for refinement-style claims -/

/-- Outcome of one rock-paper-scissors round from the user's point of view. -/
inductive RpsOutcome where
  | tie
  | userWins
  | botWins
deriving DecidableEq, Repr

/-- Modelled from the claim's words, for comparison with the code: the
standard beats-relation — equal choices tie, rock beats scissors, scissors
beats paper, paper beats rock. -/
def standardRps (u b : String) : RpsOutcome :=
  if u = b then .tie
  else if (u = "rock" ∧ b = "scissors") ∨ (u = "scissors" ∧ b = "paper")
      ∨ (u = "paper" ∧ b = "rock") then .userWins
  else .botWins

/-- The code's rendering of each outcome. -/
def rpsOutcomeText : RpsOutcome → String
  | .tie => "It's a tie! 🤝"
  | .userWins => "You win! 🎉"
  | .botWins => "I win! 🤖"

/-! ## Theorems settling the claims -/

/-- C8: for every draw of the random source, `roll_dice` produces a reply
whose displayed number is in {1,2,3,4,5,6} with the matching face glyph, and
`flip_coin` produces a result in {Heads, Tails}. -/
theorem dice_and_coin_ranges :
    (∀ d : Fin 6, ∃ n, n ∈ [1, 2, 3, 4, 5, 6] ∧
      roll_dice d = "🎲 You rolled: " ++ dice_emojis.getD (n - 1) "" ++ " (" ++ toString n ++ ")") ∧
    (∀ d : Fin 2, (flip_result d = "Heads" ∨ flip_result d = "Tails") ∧
      flip_coin d = (if flip_result d = "Heads" then "🪙" else "🔘")
        ++ " The coin landed on: **" ++ flip_result d ++ "**!") := by
  constructor
  · intro d
    refine ⟨d.val + 1, ?_, rfl⟩
    fin_cases d <;> decide
  · intro d
    refine ⟨?_, rfl⟩
    fin_cases d
    · exact Or.inl rfl
    · exact Or.inr rfl

/-- C10: for every non-empty argument list, the magic 8-ball reply does not
depend on the argument content — two invocations with different non-empty
argument lists and the same draw produce the same reply, drawn from the fixed
18-phrase catalog. -/
theorem magic_8ball_arg_independent (args1 args2 : List String) (d : Fin 18)
    (h1 : args1 ≠ []) (h2 : args2 ≠ []) :
    magic_8ball args1 d = magic_8ball args2 d ∧
    ∃ r ∈ eightball_responses,
      magic_8ball args1 d = [Action.reply ("🔮 The magic 8-ball says: **" ++ r ++ "**")] := by
  unfold magic_8ball
  rw [if_neg h1, if_neg h2]
  exact ⟨rfl, _, List.get_mem _ _ _, rfl⟩

/-- Closed instance of `magic_8ball_arg_independent` at concrete inputs. -/
theorem magic_8ball_arg_independent_witness :
    magic_8ball ["Will", "I", "win?"] ⟨4, by decide⟩ = magic_8ball ["other"] ⟨4, by decide⟩ ∧
    magic_8ball ["Will", "I", "win?"] ⟨4, by decide⟩ =
      [Action.reply "🔮 The magic 8-ball says: **As I see it, yes.**"] :=
  ⟨(magic_8ball_arg_independent ["Will", "I", "win?"] ["other"] ⟨4, by decide⟩
      (by decide) (by decide)).1, rfl⟩

/-- C7: a missing choice or a choice whose lowercase form is not in
{rock, paper, scissors} yields the usage hint; for every valid user choice and
every bot draw the rendered outcome text follows the standard beats-relation,
with the three quoted instances. -/
theorem rps_contract :
    (∀ (args : List String) (b : Fin 3),
      args = [] ∨ strLower (args.headD "") ∉ rps_choices →
      rock_paper_scissors args b = [Action.reply rps_usage]) ∧
    (∀ (a : String) (rest : List String) (b : Fin 3),
      strLower a ∈ rps_choices →
      rock_paper_scissors (a :: rest) b =
        [Action.reply (rps_render (strLower a) (rps_bot_choice b))]) ∧
    (∀ u b, u ∈ rps_choices → b ∈ rps_choices →
      rps_result_text u b = rpsOutcomeText (standardRps u b)) ∧
    rps_result_text "rock" "scissors" = "You win! 🎉" ∧
    rps_result_text "rock" "rock" = "It's a tie! 🤝" ∧
    rps_result_text "rock" "paper" = "I win! 🤖" := by
  refine ⟨?_, ?_, ?_, by decide, by decide, by decide⟩
  · intro args b h
    unfold rock_paper_scissors
    rw [if_pos h]
  · intro a rest b h
    unfold rock_paper_scissors
    rw [if_neg (by simp [h])]
    rfl
  · intro u b hu hb
    simp only [rps_choices, List.mem_cons, List.not_mem_nil, or_false] at hu hb
    rcases hu with rfl | rfl | rfl <;> rcases hb with rfl | rfl | rfl <;> decide

/-- Closed instance of `rps_contract`: `rock` against a forced `scissors` bot
draw wins, and a missing choice gets the usage hint. -/
theorem rps_contract_witness :
    rock_paper_scissors ["rock"] ⟨2, by decide⟩ =
      [Action.reply "You chose: ✊ rock\nI chose: ✌️ scissors\n\nYou win! 🎉"] ∧
    rock_paper_scissors [] ⟨0, by decide⟩ = [Action.reply rps_usage] := by
  constructor
  · rw [rps_contract.2.1 "rock" [] ⟨2, by decide⟩ (by decide)]
    decide
  · exact rps_contract.1 [] ⟨0, by decide⟩ (Or.inl rfl)

/-- C6: `/ask` with no argument text sends exactly the usage hint and makes no
Generator call; with argument text it sends the thinking placeholder, makes
exactly one Generator call with the space-joined arguments, and relays the
response, or relays a reply containing the error's description on failure. -/
theorem ask_gemini_contract (args : List String) (gen : String → Except String String) :
    (args = [] →
      ask_gemini args gen = [Action.reply ask_usage] ∧
      countGenCalls (ask_gemini args gen) = 0) ∧
    (args ≠ [] →
      countGenCalls (ask_gemini args gen) = 1 ∧
      (∀ r, gen (joinSpace args) = .ok r →
        ask_gemini args gen =
          [Action.reply "🤔 Thinking...", Action.genCall (joinSpace args), Action.reply r]) ∧
      (∀ e, gen (joinSpace args) = .error e →
        ask_gemini args gen =
          [Action.reply "🤔 Thinking...", Action.genCall (joinSpace args),
           Action.reply ("❌ Error: " ++ e)])) := by
  constructor
  · intro h
    subst h
    exact ⟨rfl, rfl⟩
  · intro h
    unfold ask_gemini
    rw [if_neg h]
    refine ⟨?_, ?_, ?_⟩
    · cases hg : gen (joinSpace args) <;>
        simp [hg, countGenCalls, Action.isGenCall, List.filter]
    · intro r hr
      simp only [hr]
    · intro e he
      simp only [he]

/-- Closed instance of `ask_gemini_contract`: a failing generator during
`/ask What is Python?` yields the placeholder, one generator call, and one
error reply; `/ask` alone yields the usage hint. -/
theorem ask_gemini_contract_witness :
    ask_gemini ["What", "is", "Python?"] (fun _ => Except.error "quota exceeded") =
      [Action.reply "🤔 Thinking...", Action.genCall "What is Python?",
       Action.reply "❌ Error: quota exceeded"] ∧
    ask_gemini [] (fun _ => Except.error "quota exceeded") = [Action.reply ask_usage] := by
  constructor
  · exact ((ask_gemini_contract ["What", "is", "Python?"] _).2 (by decide)).2.2
      "quota exceeded" rfl
  · exact ((ask_gemini_contract [] _).1 rfl).1

/-- Helper: when the routing guard passes, `handle_group_message` runs its
generation body. -/
theorem handle_group_message_routed (botUsername : String) (botId : Nat)
    (text : String) (replyToSenderId : Option Nat) (gen : String → Except String String)
    (hroute : mentioned botUsername text = true ∨ isReplyToBot botId replyToSenderId = true) :
    handle_group_message botUsername botId text replyToSenderId gen =
      (let t := strTrim (strReplace text ("@" ++ botUsername) "")
       if t = "" then [Action.reply "Yes? How can I help you?"]
       else
         match gen t with
         | .ok r => [Action.genCall t, Action.reply r]
         | .error e => [Action.genCall t, Action.reply ("❌ Sorry, I encountered an error: " ++ e)]) := by
  have hguard : (mentioned botUsername text || isReplyToBot botId replyToSenderId) = true := by
    rcases hroute with h | h <;> simp [h]
  unfold handle_group_message
  rw [hguard]
  rfl

/-- C4: a group free-text event whose text does not contain the bot's handle
and that is not a reply to the bot produces zero Responder calls and zero
Generator calls. -/
theorem group_message_unaddressed_dropped (botUsername : String) (botId : Nat)
    (text : String) (replyToSenderId : Option Nat) (gen : String → Except String String)
    (hm : strContains text ("@" ++ botUsername) = false)
    (hr : replyToSenderId ≠ some botId) :
    handle_group_message botUsername botId text replyToSenderId gen = [] ∧
    countReplies (handle_group_message botUsername botId text replyToSenderId gen) = 0 ∧
    countGenCalls (handle_group_message botUsername botId text replyToSenderId gen) = 0 := by
  have h1 : mentioned botUsername text = false := by
    unfold mentioned
    split <;> simp [hm]
  have h2 : isReplyToBot botId replyToSenderId = false := by
    unfold isReplyToBot
    cases replyToSenderId with
    | none => rfl
    | some i =>
      have : i ≠ botId := fun h => hr (by rw [h])
      simp [this]
  have hmain : handle_group_message botUsername botId text replyToSenderId gen = [] := by
    unfold handle_group_message
    rw [h1, h2]
    rfl
  rw [hmain]
  exact ⟨rfl, rfl, rfl⟩

/-- Closed instance of `group_message_unaddressed_dropped`: a plain group
message "hello" with no mention and no reply-to is silently dropped. -/
theorem group_message_unaddressed_dropped_witness :
    handle_group_message "gemini_bot" 99 "hello" none (fun p => Except.ok p) = [] :=
  (group_message_unaddressed_dropped "gemini_bot" 99 "hello" none (fun p => Except.ok p)
    (by decide) (by decide)).1

/-- C5: a group free-text event routed to generation has the handle stripped
from anywhere in the text and trimmed; an empty remainder gets the canned
prompt and no Generator call; otherwise exactly one Generator call is made
with the remaining text, whose response is relayed verbatim, or a formatted
error message on failure. -/
theorem group_message_generation_routing (botUsername : String) (botId : Nat)
    (text : String) (replyToSenderId : Option Nat) (gen : String → Except String String)
    (hroute : mentioned botUsername text = true ∨ isReplyToBot botId replyToSenderId = true) :
    (strTrim (strReplace text ("@" ++ botUsername) "") = "" →
      handle_group_message botUsername botId text replyToSenderId gen =
        [Action.reply "Yes? How can I help you?"] ∧
      countGenCalls (handle_group_message botUsername botId text replyToSenderId gen) = 0) ∧
    (strTrim (strReplace text ("@" ++ botUsername) "") ≠ "" →
      countGenCalls (handle_group_message botUsername botId text replyToSenderId gen) = 1 ∧
      (∀ r, gen (strTrim (strReplace text ("@" ++ botUsername) "")) = .ok r →
        handle_group_message botUsername botId text replyToSenderId gen =
          [Action.genCall (strTrim (strReplace text ("@" ++ botUsername) "")),
           Action.reply r]) ∧
      (∀ e, gen (strTrim (strReplace text ("@" ++ botUsername) "")) = .error e →
        handle_group_message botUsername botId text replyToSenderId gen =
          [Action.genCall (strTrim (strReplace text ("@" ++ botUsername) "")),
           Action.reply ("❌ Sorry, I encountered an error: " ++ e)])) := by
  have hbody := handle_group_message_routed botUsername botId text replyToSenderId gen hroute
  constructor
  · intro ht
    rw [hbody]
    simp only [ht]
    exact ⟨rfl, rfl⟩
  · intro ht
    rw [hbody]
    simp only [ht, if_neg, if_false]
    refine ⟨?_, ?_, ?_⟩
    · cases hg : gen (strTrim (strReplace text ("@" ++ botUsername) "")) <;>
        simp [hg, countGenCalls, Action.isGenCall, List.filter, ht]
    · intro r hr
      simp only [hr, ht, if_neg]
    · intro e he
      simp only [he, ht, if_neg]

/-- Closed instance of `group_message_generation_routing`: "@bot hello" with
handle "@bot" makes exactly one Generator call with prompt "hello" and relays
its answer. -/
theorem group_message_generation_routing_witness :
    handle_group_message "bot" 42 "@bot hello" none (fun p => Except.ok ("Echo " ++ p)) =
      [Action.genCall "hello", Action.reply "Echo hello"] ∧
    countGenCalls (handle_group_message "bot" 42 "@bot hello" none
      (fun p => Except.ok ("Echo " ++ p))) = 1 := by
  have h := group_message_generation_routing "bot" 42 "@bot hello" none
    (fun p => Except.ok ("Echo " ++ p)) (Or.inl (by decide))
  have h2 := (h.2 (by decide))
  exact ⟨h2.2.1 "Echo hello" rfl, h2.1⟩

/-- C1 counterexample: invoking `/trivia Paris` while chat 0 is Idle (empty
store) does create a pending session — with answer "Paris", since draw 0
selects the France question — and replies with a question, not with any
"no pending question" result. -/
theorem trivia_idle_submit_creates_session :
    (trivia 0 ["Paris"] ⟨0, by decide⟩ emptyStore).2 0 =
      some { trivia_answer := some "Paris" } ∧
    (trivia 0 ["Paris"] ⟨0, by decide⟩ emptyStore).1 =
      [Action.reply
        "❓ Trivia Question:\n\nWhat is the capital of France?\n\nReply with: /trivia [your answer]"] :=
  ⟨rfl, rfl⟩

/-- C1 (amended): invoking the trivia entry point with argument text while the
conversation is Idle does not act as answer submission — it issues a new
question and creates a pending session holding that question's answer. -/
theorem trivia_idle_with_args_issues_question (c : Nat) (args : List String) (d : Fin 8)
    (gs : GameState) (h : pendingAnswer gs c = none) :
    trivia c args d gs = trivia_new_question c d gs ∧
    pendingAnswer (trivia c args d gs).2 c =
      some (trivia_questions.get (Fin.cast trivia_questions_length.symm d)).2 := by
  have h1 : trivia c args d gs = trivia_new_question c d gs := by
    unfold trivia
    cases args with
    | nil => rfl
    | cons a rest => rw [h]
  refine ⟨h1, ?_⟩
  rw [h1]
  unfold trivia_new_question pendingAnswer GameState.update
  simp

/-- Closed instance of `trivia_idle_with_args_issues_question` at chat 5 with
argument "whatever" and draw 2 (the Jupiter question). -/
theorem trivia_idle_with_args_issues_question_witness :
    trivia 5 ["whatever"] ⟨2, by decide⟩ emptyStore =
      trivia_new_question 5 ⟨2, by decide⟩ emptyStore ∧
    pendingAnswer (trivia 5 ["whatever"] ⟨2, by decide⟩ emptyStore).2 5 = some "Jupiter" := by
  have h := trivia_idle_with_args_issues_question 5 ["whatever"] ⟨2, by decide⟩ emptyStore rfl
  exact ⟨h.1, h.2⟩

/-- C2: submitting an answer while a session is pending compares the joined,
trimmed text to the stored answer case-insensitively, replies with the stored
correct answer on mismatch, and leaves the conversation Idle either way. -/
theorem trivia_submit_answer (c : Nat) (a : String) (rest : List String) (d : Fin 8)
    (gs : GameState) (correct : String) (hp : pendingAnswer gs c = some correct) :
    (trivia c (a :: rest) d gs).1 =
      [Action.reply (if strLower (strTrim (joinSpace (a :: rest))) = strLower correct
          then "✅ Correct! Well done! 🎉"
          else "❌ Wrong! The correct answer was: " ++ correct),
       Action.reply "Type /trivia for another question!"] ∧
    (trivia c (a :: rest) d gs).2 = gs.update c { trivia_answer := none } ∧
    isIdle (trivia c (a :: rest) d gs).2 c = true := by
  unfold trivia
  rw [hp]
  refine ⟨rfl, rfl, ?_⟩
  simp [isIdle, pendingAnswer, GameState.update]

/-- Closed instance of `trivia_submit_answer`: "PARIS" matches stored "Paris",
and the conversation is Idle afterwards. -/
theorem trivia_submit_answer_witness :
    (trivia 3 ["PARIS"] ⟨0, by decide⟩
        (emptyStore.update 3 { trivia_answer := some "Paris" })).1 =
      [Action.reply "✅ Correct! Well done! 🎉",
       Action.reply "Type /trivia for another question!"] ∧
    isIdle (trivia 3 ["PARIS"] ⟨0, by decide⟩
        (emptyStore.update 3 { trivia_answer := some "Paris" })).2 3 = true := by
  have h := trivia_submit_answer 3 "PARIS" [] ⟨0, by decide⟩
    (emptyStore.update 3 { trivia_answer := some "Paris" }) "Paris" (by decide)
  refine ⟨?_, h.2.2⟩
  rw [h.1]
  decide

/-- C3: requesting a question twice in a row leaves exactly one session for
the conversation, holding the second question's answer (unconditional
overwrite), and touches no other conversation's entry. -/
theorem trivia_request_twice_overwrites (c : Nat) (gs : GameState) (d1 d2 : Fin 8) :
    (trivia c [] d2 (trivia c [] d1 gs).2).2 c =
      some { trivia_answer := some (trivia_questions.get (Fin.cast trivia_questions_length.symm d2)).2 } ∧
    (∀ k, k ≠ c → (trivia c [] d2 (trivia c [] d1 gs).2).2 k = gs k) := by
  have e1 : ∀ (gs' : GameState) (d : Fin 8),
      trivia c [] d gs' = trivia_new_question c d gs' := by
    intro gs' d
    unfold trivia
    cases hp : pendingAnswer gs' c <;> rfl
  rw [e1, e1]
  unfold trivia_new_question GameState.update
  constructor
  · simp
  · intro k hk
    simp [hk]

/-- C9: consuming a pending session deletes only the `trivia_answer` field —
the chat's entry remains in the store as an empty record, the conversation is
Idle, and the next trivia event behaves identically to what it would do had
the whole entry been removed. -/
theorem trivia_consume_keeps_empty_entry (c : Nat) (a : String) (rest : List String)
    (d : Fin 8) (gs : GameState) (correct : String)
    (hp : pendingAnswer gs c = some correct) :
    (trivia c (a :: rest) d gs).2 c = some { trivia_answer := none } ∧
    isIdle (trivia c (a :: rest) d gs).2 c = true ∧
    (∀ (args2 : List String) (d2 : Fin 8),
      trivia c args2 d2 (trivia c (a :: rest) d gs).2 =
        trivia c args2 d2 (removeEntry (trivia c (a :: rest) d gs).2 c)) := by
  have h2 : (trivia c (a :: rest) d gs).2 = gs.update c { trivia_answer := none } := by
    unfold trivia
    rw [hp]
  rw [h2]
  refine ⟨by simp [GameState.update], by simp [isIdle, pendingAnswer, GameState.update], ?_⟩
  intro args2 d2
  have hpend1 : pendingAnswer (gs.update c { trivia_answer := none }) c = none := by
    simp [pendingAnswer, GameState.update]
  have hpend2 :
      pendingAnswer (removeEntry (gs.update c { trivia_answer := none }) c) c = none := by
    simp [pendingAnswer, removeEntry]
  have e1 : trivia c args2 d2 (gs.update c { trivia_answer := none }) =
      trivia_new_question c d2 (gs.update c { trivia_answer := none }) := by
    unfold trivia
    cases args2 with
    | nil => rfl
    | cons x xs => rw [hpend1]
  have e2 : trivia c args2 d2 (removeEntry (gs.update c { trivia_answer := none }) c) =
      trivia_new_question c d2 (removeEntry (gs.update c { trivia_answer := none }) c) := by
    unfold trivia
    cases args2 with
    | nil => rfl
    | cons x xs => rw [hpend2]
  rw [e1, e2]
  unfold trivia_new_question
  congr 1
  funext k
  by_cases hk : k = c
  · simp [GameState.update, hk]
  · simp [GameState.update, removeEntry, hk]

/-- Closed instance of `trivia_consume_keeps_empty_entry` at chat 1 with
stored answer "4": the entry survives as an empty record and the next
`/trivia` behaves the same as with the entry fully removed. -/
theorem trivia_consume_keeps_empty_entry_witness :
    (trivia 1 ["4"] ⟨0, by decide⟩ (emptyStore.update 1 { trivia_answer := some "4" })).2 1 =
      some { trivia_answer := none } ∧
    trivia 1 [] ⟨3, by decide⟩
        ((trivia 1 ["4"] ⟨0, by decide⟩ (emptyStore.update 1 { trivia_answer := some "4" })).2) =
      trivia 1 [] ⟨3, by decide⟩
        (removeEntry
          ((trivia 1 ["4"] ⟨0, by decide⟩
            (emptyStore.update 1 { trivia_answer := some "4" })).2) 1) := by
  have h := trivia_consume_keeps_empty_entry 1 "4" [] ⟨0, by decide⟩
    (emptyStore.update 1 { trivia_answer := some "4" }) "4" (by decide)
  exact ⟨h.1, h.2.2 [] ⟨3, by decide⟩⟩

end Bot
